import Mathlib

/-!
Verification of the data-shaping pipeline of `export_data.py` (lesson7_files).

The script orchestrates: loading a sales dataset (external Data Loader),
computing a metrics report (external Metrics Calculator), and reshaping the
report into eight JSON export records.  We shallowly embed the Python value
universe that flows through the script (native scalars, numpy scalars and
arrays, pandas Series and DataFrames, dicts and lists) as the inductive type
`PyVal`, translate `to_python_types` and the per-target shaping logic of
`export_data` into Lean functions, and prove the spec's claims about them.

Modelling conventions:
  * Python floats are carried as `Rat`; the script performs no float
    arithmetic, floats only flow through unchanged, so exact rationals are a
    faithful carrier for the values the claims mention (e.g. `2.5`).
  * A pandas DataFrame is row-oriented: a list of rows, each row an
    association list from column name to cell value (`Row`).
  * `DataFrame.to_dict(orient=records)` and `Series.to_dict` box numpy
    scalar cells into native scalars (pandas `maybe_box_native`); keys /
    column labels are not boxed.  `ndarray.tolist` recursively converts
    nested arrays and numpy scalars and leaves other objects untouched.
  * Missing cells (pandas NaN / None) are modelled as `pyNone`; `notna`
    tests against it.
-/

namespace ExportData

/-- A Python value as it flows through `export_data.py`: native scalars,
numpy scalars/arrays, pandas Series/DataFrames, dicts and lists. -/
inductive PyVal where
  | pyNone : PyVal
  | pyBool : Bool → PyVal
  | pyInt : Int → PyVal
  | pyFloat : Rat → PyVal
  | pyStr : String → PyVal
  | npInt : Int → PyVal
  | npFloat : Rat → PyVal
  | npArray : List PyVal → PyVal
  | pySeries : List (PyVal × PyVal) → PyVal
  | pyDataFrame : List (List (String × PyVal)) → PyVal
  | pyDict : List (PyVal × PyVal) → PyVal
  | pyList : List PyVal → PyVal

/-- One row of a pandas DataFrame: column name → cell value. -/
abbrev Row := List (String × PyVal)

/-- A pandas DataFrame, row-oriented. -/
abbrev Frame := List Row

/-- The Metrics Calculator's report: a Python dict with string keys
(metric-group names) and arbitrary values. -/
abbrev Report := List (String × PyVal)

/-- pandas `maybe_box_native`: convert a numpy scalar to the corresponding
native Python scalar, leave everything else untouched (not recursive).
Applied by `DataFrame.to_dict(orient=records)` and `Series.to_dict` to the
values they emit. -/
def maybe_box_native : PyVal → PyVal
  | .npInt n => .pyInt n
  | .npFloat q => .pyFloat q
  | v => v

/-- Model of `DataFrame.to_dict(orient=records)`: one dict per row, column name →
boxed cell value. -/
def dfRecords (rows : Frame) : List PyVal :=
  rows.map (fun row => .pyDict (row.map (fun kv => (.pyStr kv.1, maybe_box_native kv.2))))

/-- Model of `Series.to_dict()`: label → boxed value; labels are not boxed. -/
def seriesToDict (es : List (PyVal × PyVal)) : List (PyVal × PyVal) :=
  es.map (fun kv => (kv.1, maybe_box_native kv.2))

mutual

/-- Model of `ndarray.tolist()`: recursively turn nested numpy arrays into lists and
numpy scalars into native scalars; any other element is returned as-is. -/
def npTolist : PyVal → PyVal
  | .npArray xs => .pyList (npTolistList xs)
  | .npInt n => .pyInt n
  | .npFloat q => .pyFloat q
  | v => v

/-- Elementwise `ndarray.tolist()` over the elements of an array. -/
def npTolistList : List PyVal → List PyVal
  | [] => []
  | x :: xs => npTolist x :: npTolistList xs

end

mutual

/-- The function `to_python_types` of `export_data.py` (lines 21-38): convert pandas /
numpy types to Python native types for JSON serialization.  The isinstance
dispatch order of the source (DataFrame, Series, np.integer, np.floating,
np.ndarray, dict, list, fallthrough) is mirrored by the disjoint
constructors. -/
def to_python_types : PyVal → PyVal
  | .pyDataFrame rows => .pyList (dfRecords rows)
  | .pySeries es => .pyDict (seriesToDict es)
  | .npInt n => .pyInt n
  | .npFloat q => .pyFloat q
  | .npArray xs => .pyList (npTolistList xs)
  | .pyDict es => .pyDict (toPyPairs es)
  | .pyList xs => .pyList (toPyList xs)
  | v => v

/-- The dict comprehension of line 34: keys unchanged, values recursed. -/
def toPyPairs : List (PyVal × PyVal) → List (PyVal × PyVal)
  | [] => []
  | (k, v) :: es => (k, to_python_types v) :: toPyPairs es

/-- The list comprehension of line 36: elementwise recursion. -/
def toPyList : List PyVal → List PyVal
  | [] => []
  | x :: xs => to_python_types x :: toPyList xs

end

theorem toPyPairs_eq_map (es : List (PyVal × PyVal)) :
    toPyPairs es = es.map (fun kv => (kv.1, to_python_types kv.2)) := by
  induction es with
  | nil => rfl
  | cons kv es ih => cases kv; simp [toPyPairs, ih]

theorem toPyList_eq_map (xs : List PyVal) :
    toPyList xs = xs.map to_python_types := by
  induction xs with
  | nil => rfl
  | cons x xs ih => simp [toPyList, ih]

theorem npTolistList_eq_map (xs : List PyVal) :
    npTolistList xs = xs.map npTolist := by
  induction xs with
  | nil => rfl
  | cons x xs ih => simp [npTolistList, ih]

/-- Numeric Python/numpy scalar (int or float, native or numpy). -/
def isNumeric : PyVal → Bool
  | .pyInt _ => true
  | .pyFloat _ => true
  | .npInt _ => true
  | .npFloat _ => true
  | _ => false

/-- Native Python int or float. -/
def isNativeNum : PyVal → Bool
  | .pyInt _ => true
  | .pyFloat _ => true
  | _ => false

theorem maybe_box_native_numeric (v : PyVal) (h : isNumeric v = true) :
    isNativeNum (maybe_box_native v) = true := by
  cases v <;> simp_all [isNumeric, isNativeNum, maybe_box_native]

/-- Claim C1: normalizing a row-oriented table yields the ordered sequence of
its rows as mappings from column name to (native-boxed) cell value; every
numeric cell value comes out as a native int or float.  In particular the
one-row table `[\x7b"a": 1, "b": 2.5\x7d]` (numpy-typed cells, as pandas
stores numeric columns) yields `[\x7b"a": 1, "b": 2.5\x7d]` with native int
and float values. -/
theorem to_python_types_dataframe (rows : Frame) :
    (to_python_types (.pyDataFrame rows) =
        .pyList (rows.map (fun row =>
          .pyDict (row.map (fun kv => (.pyStr kv.1, maybe_box_native kv.2)))))) ∧
    (∀ row ∈ rows, ∀ kv ∈ row, isNumeric kv.2 = true →
        isNativeNum (maybe_box_native kv.2) = true) ∧
    to_python_types (.pyDataFrame [[("a", .npInt 1), ("b", .npFloat (5/2))]]) =
      .pyList [.pyDict [(.pyStr "a", .pyInt 1), (.pyStr "b", .pyFloat (5/2))]] := by
  refine ⟨rfl, ?_, rfl⟩
  intro row _ kv _ h
  exact maybe_box_native_numeric kv.2 h

/-- Witness for C1: the component facts of `to_python_types_dataframe`
evaluated at the concrete one-row table of the claim. -/
theorem to_python_types_dataframe_witness :
    to_python_types (.pyDataFrame [[("a", .npInt 1), ("b", .npFloat (5/2))]]) =
      .pyList [.pyDict [(.pyStr "a", .pyInt 1), (.pyStr "b", .pyFloat (5/2))]] :=
  (to_python_types_dataframe [[("a", .npInt 1), ("b", .npFloat (5/2))]]).2.2

/-- Claim C10: on a mapping, `to_python_types` keeps exactly the same keys in
the same order (including non-string keys) and recursively normalizes each
value; on a list it keeps the length and order and recursively normalizes
each element. -/
theorem to_python_types_dict_list (es : List (PyVal × PyVal)) (xs : List PyVal) :
    (∃ es', to_python_types (.pyDict es) = .pyDict es' ∧
        es'.map Prod.fst = es.map Prod.fst ∧
        es'.map Prod.snd = es.map (fun kv => to_python_types kv.2)) ∧
    (∃ ys, to_python_types (.pyList xs) = .pyList ys ∧
        ys.length = xs.length ∧
        ∀ i : Nat, ys[i]? = (xs[i]?).map to_python_types) := by
  constructor
  · refine ⟨es.map (fun kv => (kv.1, to_python_types kv.2)), ?_, ?_, ?_⟩
    · rw [to_python_types, toPyPairs_eq_map]
    · simp
    · simp
  · refine ⟨xs.map to_python_types, ?_, by simp, ?_⟩
    · rw [to_python_types, toPyList_eq_map]
    · intro i
      simp [List.getElem?_map]

/-- Numeric view of a Python scalar, for `==`-style comparisons: Python
compares ints, floats, numpy scalars and bools numerically (`True == 1`). -/
def asNum : PyVal → Option Rat
  | .pyInt n => some (n : Rat)
  | .npInt n => some (n : Rat)
  | .pyFloat q => some q
  | .npFloat q => some q
  | .pyBool b => some (if b then 1 else 0)
  | _ => none

/-- Python `==` on the scalar values the script compares (year cells against
configured years, review-score cells against each other): numeric values
compare numerically across int/float/numpy wrappers, strings and None
compare to themselves.  Container equality is never exercised by the
script's comparisons and is modelled as `false`. -/
def pyEq (a b : PyVal) : Bool :=
  match asNum a, asNum b with
  | some x, some y => x == y
  | none, none =>
    match a, b with
    | .pyStr s, .pyStr t => s == t
    | .pyNone, .pyNone => true
    | _, _ => false
  | _, _ => false

/-- Model of `report.get(key, default)` on the top-level report dict (a Python dict
with string keys). -/
def reportGet (r : Report) (k : String) (d : PyVal) : PyVal :=
  match r.lookup k with
  | some v => v
  | none => d

/-- Does a Python-dict key equal the string literal `s`?  (String keys match
by string equality; a non-string key never equals a string literal.) -/
def isStrKey (k : PyVal) (s : String) : Bool :=
  match k with
  | .pyStr t => t == s
  | _ => false

/-- Model of `v.get(key, default)` where the receiver is expected to be a mapping.
`dict.get` never raises; on a value with no `get` attribute Python raises
`AttributeError`, modelled as `Except.error`.  (pandas objects also expose a
`get` method, but per the report data model the groups this is applied to
are mappings; the claims only exercise absent-or-mapping groups.) -/
def dGet (v : PyVal) (k : String) (d : PyVal) : Except String PyVal :=
  match v with
  | .pyDict es =>
    match es.find? (fun kv => isStrKey kv.1 k) with
    | some kv => .ok kv.2
    | none => .ok d
  | _ => .error "AttributeError: no get attribute"

/-- Model of `item.get(key, default)` on a records-dict (string keys, as produced by
`to_dict(orient=records)`). -/
def itemGet (row : List (String × PyVal)) (k : String) (d : PyVal) : PyVal :=
  match row.find? (fun kv => kv.1 == k) with
  | some kv => kv.2
  | none => d

/-- Cell of a row at a column.  The script only reads columns present in the
dataset (pandas would raise `KeyError` otherwise); an absent cell reads as
missing (`pyNone`, i.e. NaN). -/
def cellOf (r : Row) (c : String) : PyVal :=
  match r.lookup c with
  | some v => v
  | none => .pyNone

/-- pandas `notna`: the value is not missing. -/
def notna (v : PyVal) : Bool :=
  match v with
  | .pyNone => false
  | _ => true

/-- Number of occurrences of a value in a column, under Python value
equality. -/
def countOcc (xs : List PyVal) (v : PyVal) : Nat :=
  (xs.filter (fun x => pyEq x v)).length

/-- Distinct values of a column in order of first occurrence (skipping any
value already seen), under Python value equality. -/
def dedupFirstAux (seen : List PyVal) : List PyVal → List PyVal
  | [] => []
  | x :: xs =>
    if seen.any (fun y => pyEq y x) then dedupFirstAux seen xs
    else x :: dedupFirstAux (x :: seen) xs

/-- Distinct values of a column in order of first occurrence, under Python
value equality. -/
def dedupFirst (xs : List PyVal) : List PyVal :=
  dedupFirstAux [] xs

/-- Insert into a count-descending list, keeping earlier entries first among
equal counts (stable). -/
def insertDesc (p : PyVal × Nat) : List (PyVal × Nat) → List (PyVal × Nat)
  | [] => [p]
  | q :: qs => if q.2 < p.2 then p :: q :: qs else q :: insertDesc p qs

/-- Stable insertion sort by count, descending: elements are taken in input
order and each is placed after every already-placed element of greater or
equal count. -/
def sortDesc (l : List (PyVal × Nat)) : List (PyVal × Nat) :=
  l.foldl (fun acc p => insertDesc p acc) []

/-- pandas `Series.value_counts()`: counts of the distinct values of a
column, sorted by count descending (pandas leaves the relative order of
equal counts unspecified; we fix the stable first-occurrence order). -/
def value_counts (xs : List PyVal) : List (PyVal × Nat) :=
  sortDesc ((dedupFirst xs).map (fun v => (v, countOcc xs v)))

theorem insertDesc_perm (p : PyVal × Nat) (l : List (PyVal × Nat)) :
    (insertDesc p l).Perm (p :: l) := by
  induction l with
  | nil => exact List.Perm.refl _
  | cons q qs ih =>
    rw [insertDesc]
    split
    · exact List.Perm.refl _
    · exact (List.Perm.cons q ih).trans (List.Perm.swap p q qs)

theorem foldl_insertDesc_perm (l acc : List (PyVal × Nat)) :
    (l.foldl (fun a p => insertDesc p a) acc).Perm (acc ++ l) := by
  induction l generalizing acc with
  | nil => simp
  | cons p ps ih =>
    rw [List.foldl_cons]
    have h1 := ih (insertDesc p acc)
    have h2 : (insertDesc p acc ++ ps).Perm ((p :: acc) ++ ps) :=
      (insertDesc_perm p acc).append_right ps
    have h3 : ((p :: acc) ++ ps).Perm (acc ++ p :: ps) := List.perm_middle.symm
    exact (h1.trans h2).trans h3

theorem sortDesc_perm (l : List (PyVal × Nat)) : (sortDesc l).Perm l :=
  foldl_insertDesc_perm l []

theorem value_counts_perm (xs : List PyVal) :
    (value_counts xs).Perm ((dedupFirst xs).map (fun v => (v, countOcc xs v))) :=
  sortDesc_perm _

theorem mem_dedupFirstAux_sub (seen : List PyVal) (xs : List PyVal) (v : PyVal)
    (h : v ∈ dedupFirstAux seen xs) : v ∈ xs := by
  induction xs generalizing seen with
  | nil => cases h
  | cons x rest ih =>
    rw [dedupFirstAux] at h
    split at h
    · exact List.mem_cons_of_mem x (ih _ h)
    · rcases List.mem_cons.1 h with h1 | h1
      · exact h1 ▸ List.mem_cons_self x rest
      · exact List.mem_cons_of_mem x (ih _ h1)

theorem mem_dedupFirst_sub (xs : List PyVal) (v : PyVal) (h : v ∈ dedupFirst xs) :
    v ∈ xs :=
  mem_dedupFirstAux_sub [] xs v h

/-- The configuration constants at the top of the script (lines 15-17),
made explicit: `ANALYSIS_YEAR`, `COMPARISON_YEAR` (a Python value that may
be `None`), `ANALYSIS_MONTH` (may be `None`). -/
structure Config where
  analysisYear : Int
  comparisonYear : Option Int
  analysisMonth : Option Int

/-- The constants of the source: `ANALYSIS_YEAR = 2023`,
`COMPARISON_YEAR = 2022`, `ANALYSIS_MONTH = None`. -/
def defaultConfig : Config :=
  ⟨2023, some 2022, none⟩

/-- Python truthiness of the `COMPARISON_YEAR` constant as used in
`if COMPARISON_YEAR:` — `None` and `0` are falsy. -/
def optTruthy : Option Int → Bool
  | none => false
  | some n => n != 0

/-- The type of `loader.create_sales_dataset`: year filter, month filter,
status filter → dataset (the Data Loader itself is external). -/
abbrev Loader := Option Int → Option Int → Option String → Frame

/-- The dataset `combined_data` as built in lines 48-67: the primary dataset (analysis
year, optional month, status "delivered") when no comparison year is
configured; otherwise the dataset with the same month/status filters but no
year filter, restricted to rows whose `purchase_year` is the analysis year
or the comparison year. -/
def combinedData (loader : Loader) (cfg : Config) : Frame :=
  let sales_data := loader (some cfg.analysisYear) cfg.analysisMonth (some "delivered")
  if optTruthy cfg.comparisonYear then
    let allYears := loader none cfg.analysisMonth (some "delivered")
    allYears.filter (fun r =>
      [PyVal.pyInt cfg.analysisYear, PyVal.pyInt (cfg.comparisonYear.getD 0)].any
        (fun v => pyEq (cellOf r "purchase_year") v))
  else sales_data

/-- The record `kpi_metrics` (lines 82-89): six named scalars pulled out of the
`revenue_metrics`, `customer_metrics` and `delivery_metrics` report groups,
each via `.get` with default `0`; a missing group defaults to `\x7b\x7d`. -/
def kpiMetrics (report : Report) : Except String PyVal := do
  let rm := reportGet report "revenue_metrics" (.pyDict [])
  let cm := reportGet report "customer_metrics" (.pyDict [])
  let dm := reportGet report "delivery_metrics" (.pyDict [])
  let v1 ← dGet rm "total_orders" (.pyInt 0)
  let v2 ← dGet rm "total_revenue" (.pyInt 0)
  let v3 ← dGet rm "average_order_value" (.pyInt 0)
  let v4 ← dGet rm "revenue_growth_pct" (.pyInt 0)
  let v5 ← dGet cm "unique_customers" (.pyInt 0)
  let v6 ← dGet dm "fast_delivery_percentage" (.pyInt 0)
  return .pyDict [(.pyStr "total_orders", v1), (.pyStr "total_revenue", v2),
    (.pyStr "avg_order_value", v3), (.pyStr "revenue_growth_pct", v4),
    (.pyStr "unique_customers", v5), (.pyStr "fast_delivery_pct", v6)]

/-- Model of `hasattr(x, "to_dict")`: true exactly for pandas DataFrames and
Series. -/
def hasToDict : PyVal → Bool
  | .pyDataFrame _ => true
  | .pySeries _ => true
  | _ => false

/-- The record `monthly_data` (lines 95-109): when `monthly_trends` is a DataFrame,
each record is reduced to the keys `month`, `revenue`, `year`, `orders`,
with `year` stamped with the configured analysis year; a Series has a
`to_dict` attribute but `to_dict(records)` raises `TypeError`; anything
else is passed through unchanged. -/
def monthlyData (ay : Int) (mt : PyVal) : Except String PyVal :=
  match mt with
  | .pyDataFrame rows =>
    .ok (.pyList (rows.map (fun row =>
      let item := row.map (fun kv => (kv.1, maybe_box_native kv.2))
      .pyDict [(.pyStr "month", itemGet item "month" (.pyInt 0)),
               (.pyStr "revenue", itemGet item "revenue" (.pyInt 0)),
               (.pyStr "year", .pyInt ay),
               (.pyStr "orders", itemGet item "orders" (.pyInt 0))])))
  | .pySeries _ => .error "TypeError: Series.to_dict(records)"
  | v => .ok v

/-- The record `categories_data` from `categories_df` (lines 117-130): a DataFrame is
cut to its first 15 rows and each record renamed
(`product_category_name`→`category`, `total_revenue`→`revenue`,
`unique_orders`→`orders`, `items_sold` unchanged); a plain list is sliced
to its first 15 elements with no renaming; anything else yields `[]`.
A Series would reach `to_dict(records)` and raise `TypeError`. -/
def categoriesFrom (cdf : PyVal) : Except String PyVal :=
  match cdf with
  | .pyDataFrame rows =>
    .ok (.pyList ((rows.take 15).map (fun row =>
      let cat := row.map (fun kv => (kv.1, maybe_box_native kv.2))
      .pyDict [(.pyStr "category", itemGet cat "product_category_name" (.pyStr "")),
               (.pyStr "revenue", itemGet cat "total_revenue" (.pyInt 0)),
               (.pyStr "orders", itemGet cat "unique_orders" (.pyInt 0)),
               (.pyStr "items_sold", itemGet cat "items_sold" (.pyInt 0))])))
  | .pySeries _ => .error "TypeError: Series.to_dict(records)"
  | .pyList xs => .ok (.pyList (xs.take 15))
  | _ => .ok (.pyList [])

/-- Lines 115-116: `report.get("product_performance", \x7b\x7d)` then
`.get("top_categories", [])`, feeding `categoriesFrom`. -/
def categoriesData (report : Report) : Except String PyVal := do
  let pp := reportGet report "product_performance" (.pyDict [])
  let cdf ← dGet pp "top_categories" (.pyList [])
  categoriesFrom cdf

/-- The `review_score` column of the rows that survive the
`combined_data["review_score"].notna()` filter (line 139). -/
def scoresOf (combined : Frame) : List PyVal :=
  (combined.filter (fun r => notna (cellOf r "review_score"))).map
    (fun r => cellOf r "review_score")

/-- The histogram `score_counts` (line 140): value counts of the non-missing review
scores; `Series.to_dict` boxes the counts to native ints, labels stay the
column's values. -/
def scoreCounts (combined : Frame) : List (PyVal × PyVal) :=
  (value_counts (scoresOf combined)).map (fun p => (p.1, .pyInt p.2))

/-- The record `reviews_export` (lines 136-149): the recomputed `score_counts`
histogram merged with four fields pulled (with default `0`) from the
report's `customer_satisfaction` group. -/
def reviewsExport (combined : Frame) (report : Report) : Except String PyVal := do
  let cs := reportGet report "customer_satisfaction" (.pyDict [])
  let sc := PyVal.pyDict (scoreCounts combined)
  let avg ← dGet cs "avg_review_score" (.pyInt 0)
  let tot ← dGet cs "total_reviews" (.pyInt 0)
  let p5 ← dGet cs "score_5_percentage" (.pyInt 0)
  let p4 ← dGet cs "score_4_plus_percentage" (.pyInt 0)
  return .pyDict [(.pyStr "score_counts", sc), (.pyStr "average_score", avg),
    (.pyStr "total_reviews", tot), (.pyStr "score_5_percentage", p5),
    (.pyStr "score_4_plus_percentage", p4)]

/-- The eight Export Records of one run, in file order (`kpi_metrics.json`,
`revenue.json`, `categories.json`, `reviews.json`, `geo.json`,
`delivery.json`, `payments.json`, `customers.json`), each already
normalized by `to_python_types` exactly as passed to `json.dump`. -/
def exportRecords (combined : Frame) (report : Report) (ay : Int) :
    Except String (List PyVal) := do
  let kpi ← kpiMetrics report
  let monthly ← monthlyData ay (reportGet report "monthly_trends" (.pyList []))
  let cats ← categoriesData report
  let reviews ← reviewsExport combined report
  let geo := reportGet report "geographic_performance" (.pyList [])
  let delivery := reportGet report "delivery_performance" (.pyDict [])
  let payments := reportGet report "payment_analysis" (.pyDict [])
  let customers := reportGet report "customer_segments" (.pyDict [])
  return [to_python_types kpi, to_python_types monthly, to_python_types cats,
    to_python_types reviews, to_python_types geo, to_python_types delivery,
    to_python_types payments, to_python_types customers]

/-- The type of `BusinessMetricsCalculator(df).generate_comprehensive_report
(current_year, previous_year)` (the Metrics Calculator is external). -/
abbrev Calc := Frame → Int → Option Int → Report

/-- The whole `export_data` pipeline (lines 40-172) as a function of its
two external collaborators and the configuration: build the combined
dataset, request the report, and produce the eight normalized Export
Records that are written to the JSON files. -/
def export_data (loader : Loader) (calcFn : Calc) (cfg : Config) :
    Except String (List PyVal) :=
  let combined := combinedData loader cfg
  let report := calcFn combined cfg.analysisYear cfg.comparisonYear
  exportRecords combined report cfg.analysisYear

/-- The record a monthly-trends row is mapped to (lines 100-106): exactly
the keys `month`, `revenue`, `year`, `orders`; `month`, `revenue`, `orders`
copied (natively boxed) from the source row with default `0`, `year`
stamped with the analysis year. -/
def monthlyRowShape (ay : Int) (row : Row) : PyVal :=
  let item := row.map (fun kv => (kv.1, maybe_box_native kv.2))
  .pyDict [(.pyStr "month", itemGet item "month" (.pyInt 0)),
           (.pyStr "revenue", itemGet item "revenue" (.pyInt 0)),
           (.pyStr "year", .pyInt ay),
           (.pyStr "orders", itemGet item "orders" (.pyInt 0))]

/-- Claim C2: when `monthly_trends` is a table, every row is mapped to a
record with exactly the keys `month`, `revenue`, `year`, `orders` — the
first, second and fourth copied from the source row (default `0` when
absent) and `year` set to the configured analysis year for every row; with
`monthly_trends = [\x7b"month": 1, "revenue": 100, "orders": 5\x7d]` and
analysis year 2023 the emitted sequence is
`[\x7b"month": 1, "revenue": 100, "year": 2023, "orders": 5\x7d]`. -/
theorem monthly_trends_mapping (ay : Int) (rows : Frame) :
    (∃ out, monthlyData ay (.pyDataFrame rows) = .ok (.pyList out) ∧
      out.length = rows.length ∧
      ∀ i : Nat, out[i]? = (rows[i]?).map (monthlyRowShape ay)) ∧
    monthlyData 2023 (.pyDataFrame
        [[("month", .pyInt 1), ("revenue", .pyInt 100), ("orders", .pyInt 5)]]) =
      .ok (.pyList [.pyDict [(.pyStr "month", .pyInt 1), (.pyStr "revenue", .pyInt 100),
        (.pyStr "year", .pyInt 2023), (.pyStr "orders", .pyInt 5)]]) := by
  refine ⟨⟨rows.map (monthlyRowShape ay), rfl, by simp, ?_⟩, rfl⟩
  intro i
  simp [List.getElem?_map]

/-- The record a category row is mapped to (lines 122-127):
`product_category_name`→`category` (default `""`),
`total_revenue`→`revenue`, `unique_orders`→`orders`, `items_sold`
unchanged (defaults `0`). -/
def categoryRowShape (row : Row) : PyVal :=
  let cat := row.map (fun kv => (kv.1, maybe_box_native kv.2))
  .pyDict [(.pyStr "category", itemGet cat "product_category_name" (.pyStr "")),
           (.pyStr "revenue", itemGet cat "total_revenue" (.pyInt 0)),
           (.pyStr "orders", itemGet cat "unique_orders" (.pyInt 0)),
           (.pyStr "items_sold", itemGet cat "items_sold" (.pyInt 0))]

/-- Claim C3: for a category table with more than 15 rows, the categories
export holds exactly the first 15 rows, in the input's relative order
(entry `i` of the output comes from row `i` of the input — no re-sorting),
each renamed by `categoryRowShape`. -/
theorem categories_head15 (rows : Frame) (h : 15 < rows.length) :
    ∃ out, categoriesFrom (.pyDataFrame rows) = .ok (.pyList out) ∧
      out.length = 15 ∧
      ∀ i : Nat, i < 15 → out[i]? = (rows[i]?).map categoryRowShape := by
  refine ⟨(rows.take 15).map categoryRowShape, rfl, ?_, ?_⟩
  · simp [List.length_take]
    omega
  · intro i hi
    simp [List.getElem?_map, List.getElem?_take, hi]

/-- Witness for C3: the theorem applied to a concrete 20-row category
table. -/
theorem categories_head15_witness :
    15 < ((List.range 20).map
        (fun i => [("product_category_name", PyVal.pyStr (toString i))])).length ∧
    ∃ out, categoriesFrom (.pyDataFrame ((List.range 20).map
        (fun i => [("product_category_name", PyVal.pyStr (toString i))]))) =
        .ok (.pyList out) ∧
      out.length = 15 ∧
      ∀ i : Nat, i < 15 → out[i]? = (((List.range 20).map
        (fun i => [("product_category_name", PyVal.pyStr (toString i))]))[i]?).map
          categoryRowShape :=
  ⟨by simp, categories_head15 _ (by simp)⟩

/-- Claim C9: when the report's `monthly_trends` value has no `to_dict`
attribute (it is neither a DataFrame nor a Series — e.g. a plain list or
the `[]` default), the orchestrator passes it through unchanged: the value
written to `revenue.json` is just its normalization, with no `year`
injection, no renaming and no defaulting. -/
theorem monthly_trends_passthrough (ay : Int) (mt : PyVal)
    (h : hasToDict mt = false) :
    monthlyData ay mt = .ok mt := by
  cases mt <;> simp_all [hasToDict, monthlyData]

/-- Witness for C9: a plain list of records is passed through as-is. -/
theorem monthly_trends_passthrough_witness :
    hasToDict (.pyList [.pyDict [(.pyStr "month", .pyInt 1)]]) = false ∧
    monthlyData 2023 (.pyList [.pyDict [(.pyStr "month", .pyInt 1)]]) =
      .ok (.pyList [.pyDict [(.pyStr "month", .pyInt 1)]]) :=
  ⟨rfl, monthly_trends_passthrough 2023 _ rfl⟩

/-- Claim C5: with no comparison year configured (`COMPARISON_YEAR` falsy),
the combined dataset is exactly the primary dataset (analysis year,
configured month, status "delivered"); with a comparison year configured,
it is the dataset requested with no year filter (same month and status)
restricted to the rows whose `purchase_year` equals the analysis year or
the comparison year. -/
theorem combined_dataset_eq (loader : Loader) (cfg : Config) :
    (optTruthy cfg.comparisonYear = false →
      combinedData loader cfg =
        loader (some cfg.analysisYear) cfg.analysisMonth (some "delivered")) ∧
    (∀ c : Int, cfg.comparisonYear = some c → c ≠ 0 →
      combinedData loader cfg =
        (loader none cfg.analysisMonth (some "delivered")).filter (fun r =>
          pyEq (cellOf r "purchase_year") (.pyInt cfg.analysisYear) ||
            pyEq (cellOf r "purchase_year") (.pyInt c)) ∧
      ∀ r : Row, r ∈ combinedData loader cfg ↔
        r ∈ loader none cfg.analysisMonth (some "delivered") ∧
          (pyEq (cellOf r "purchase_year") (.pyInt cfg.analysisYear) = true ∨
            pyEq (cellOf r "purchase_year") (.pyInt c) = true)) := by
  constructor
  · intro h
    rw [combinedData]
    simp [h]
  · intro c hc hc0
    have ht : optTruthy (some c) = true := by
      rw [optTruthy]
      simpa using hc0
    have hfil : combinedData loader cfg =
        (loader none cfg.analysisMonth (some "delivered")).filter (fun r =>
          pyEq (cellOf r "purchase_year") (.pyInt cfg.analysisYear) ||
            pyEq (cellOf r "purchase_year") (.pyInt c)) := by
      rw [combinedData]
      simp only [hc, ht, if_true]
      congr 1
      funext r
      simp [List.any_cons, List.any_nil]
    refine ⟨hfil, ?_⟩
    intro r
    rw [hfil]
    simp [List.mem_filter, Bool.or_eq_true]

/-- Witness for C5: both halves instantiated — a run without a comparison
year on a one-row loader, and the hypotheses of the second half at the
source's configuration. -/
theorem combined_dataset_eq_witness :
    (optTruthy (Config.mk 2023 none none).comparisonYear = false →
      combinedData (fun _ _ _ => [[("purchase_year", PyVal.pyInt 2023)]])
          (Config.mk 2023 none none) =
        (fun (_ : Option Int) (_ : Option Int) (_ : Option String) =>
          [[("purchase_year", PyVal.pyInt 2023)]]) (some 2023) none
          (some "delivered")) ∧
    (∀ c : Int, (Config.mk 2023 none none).comparisonYear = some c → c ≠ 0 →
      combinedData (fun _ _ _ => [[("purchase_year", PyVal.pyInt 2023)]])
          (Config.mk 2023 none none) =
        ((fun (_ : Option Int) (_ : Option Int) (_ : Option String) =>
          [[("purchase_year", PyVal.pyInt 2023)]]) none none
          (some "delivered")).filter (fun r =>
          pyEq (cellOf r "purchase_year") (.pyInt 2023) ||
            pyEq (cellOf r "purchase_year") (.pyInt c)) ∧
      ∀ r : Row, r ∈ combinedData (fun _ _ _ => [[("purchase_year", PyVal.pyInt 2023)]])
          (Config.mk 2023 none none) ↔
        r ∈ (fun (_ : Option Int) (_ : Option Int) (_ : Option String) =>
          [[("purchase_year", PyVal.pyInt 2023)]]) none none (some "delivered") ∧
          (pyEq (cellOf r "purchase_year") (.pyInt 2023) = true ∨
            pyEq (cellOf r "purchase_year") (.pyInt c) = true)) :=
  combined_dataset_eq (fun _ _ _ => [[("purchase_year", PyVal.pyInt 2023)]])
    (Config.mk 2023 none none)

/-- A report group is absent or a plain mapping (the shape the report data
model promises for the three KPI groups). -/
def dictOrAbsent (report : Report) (g : String) : Bool :=
  match report.lookup g with
  | none => true
  | some (.pyDict _) => true
  | some _ => false

/-- The value the KPI export ends up with for field `f` of group `g`:
the field's value when the group is present (as a mapping) and has the
field, else `0`. -/
def groupField (report : Report) (g f : String) : PyVal :=
  match report.lookup g with
  | some (.pyDict es) =>
    match es.find? (fun kv => isStrKey kv.1 f) with
    | some kv => kv.2
    | none => .pyInt 0
  | _ => .pyInt 0

theorem dGet_reportGet (report : Report) (g f : String)
    (h : dictOrAbsent report g = true) :
    dGet (reportGet report g (.pyDict [])) f (.pyInt 0) =
      .ok (groupField report g f) := by
  rw [dictOrAbsent] at h
  rw [reportGet, groupField]
  cases hg : report.lookup g with
  | none => rfl
  | some v =>
    rw [hg] at h
    cases v <;> simp_all [dGet]
    split <;> rfl

/-- Claim C6: the KPI export is a mapping of exactly the six named scalars
pulled from the `revenue_metrics`, `customer_metrics` and
`delivery_metrics` groups; a missing group behaves as an empty mapping and
a missing field defaults to `0`, and no error is raised for a missing group
or field. -/
theorem kpi_defaults (report : Report)
    (h1 : dictOrAbsent report "revenue_metrics" = true)
    (h2 : dictOrAbsent report "customer_metrics" = true)
    (h3 : dictOrAbsent report "delivery_metrics" = true) :
    kpiMetrics report = .ok (.pyDict
      [(.pyStr "total_orders", groupField report "revenue_metrics" "total_orders"),
       (.pyStr "total_revenue", groupField report "revenue_metrics" "total_revenue"),
       (.pyStr "avg_order_value", groupField report "revenue_metrics" "average_order_value"),
       (.pyStr "revenue_growth_pct", groupField report "revenue_metrics" "revenue_growth_pct"),
       (.pyStr "unique_customers", groupField report "customer_metrics" "unique_customers"),
       (.pyStr "fast_delivery_pct", groupField report "delivery_metrics" "fast_delivery_percentage")]) ∧
    ∀ g f : String, report.lookup g = none → groupField report g f = .pyInt 0 := by
  constructor
  · rw [kpiMetrics]
    rw [dGet_reportGet report _ _ h1, dGet_reportGet report _ _ h1,
      dGet_reportGet report _ _ h1, dGet_reportGet report _ _ h1,
      dGet_reportGet report _ _ h2, dGet_reportGet report _ _ h3]
    rfl
  · intro g f hg
    rw [groupField, hg]

/-- Witness for C6: the empty report — every group missing — yields the
all-zero KPI mapping without error. -/
theorem kpi_defaults_witness :
    dictOrAbsent [] "revenue_metrics" = true ∧
    (kpiMetrics [] = .ok (.pyDict
      [(.pyStr "total_orders", groupField [] "revenue_metrics" "total_orders"),
       (.pyStr "total_revenue", groupField [] "revenue_metrics" "total_revenue"),
       (.pyStr "avg_order_value", groupField [] "revenue_metrics" "average_order_value"),
       (.pyStr "revenue_growth_pct", groupField [] "revenue_metrics" "revenue_growth_pct"),
       (.pyStr "unique_customers", groupField [] "customer_metrics" "unique_customers"),
       (.pyStr "fast_delivery_pct", groupField [] "delivery_metrics" "fast_delivery_percentage")]) ∧
      ∀ g f : String, List.lookup g ([] : Report) = none →
        groupField [] g f = .pyInt 0) :=
  ⟨rfl, kpi_defaults [] rfl rfl rfl⟩

/-- The histogram the spec asks for, written from its words: one entry per
distinct non-missing review score of the combined dataset, carrying the
count of rows with that score. -/
def histogramOf (combined : Frame) : List (PyVal × PyVal) :=
  (dedupFirst (scoresOf combined)).map
    (fun v => (v, .pyInt (countOcc (scoresOf combined) v)))

/-- Claim C4: the reviews export's `score_counts` field is exactly the
histogram of the combined dataset's `review_score` column — one entry per
distinct non-missing score with its row count (rows with a missing score
excluded) — and for the score column `[5, 5, 4, 3, None]` it is
`\x7b5: 2, 4: 1, 3: 1\x7d`. -/
theorem reviews_score_counts (combined : Frame) (report : Report)
    (h : dictOrAbsent report "customer_satisfaction" = true) :
    (∃ rest, reviewsExport combined report =
      .ok (.pyDict ((.pyStr "score_counts", .pyDict (scoreCounts combined)) :: rest))) ∧
    (scoreCounts combined).Perm (histogramOf combined) ∧
    (∀ p ∈ scoreCounts combined,
      p.2 = .pyInt (countOcc (scoresOf combined) p.1) ∧ p.1 ∈ scoresOf combined) ∧
    reviewsExport
        [[("review_score", .pyInt 5)], [("review_score", .pyInt 5)],
         [("review_score", .pyInt 4)], [("review_score", .pyInt 3)],
         [("review_score", .pyNone)]] [] =
      .ok (.pyDict [(.pyStr "score_counts", .pyDict
          [(.pyInt 5, .pyInt 2), (.pyInt 4, .pyInt 1), (.pyInt 3, .pyInt 1)]),
        (.pyStr "average_score", .pyInt 0), (.pyStr "total_reviews", .pyInt 0),
        (.pyStr "score_5_percentage", .pyInt 0),
        (.pyStr "score_4_plus_percentage", .pyInt 0)]) := by
  have hperm : (scoreCounts combined).Perm (histogramOf combined) := by
    have h1 := (value_counts_perm (scoresOf combined)).map
      (fun p : PyVal × Nat => (p.1, PyVal.pyInt p.2))
    rw [scoreCounts, histogramOf]
    simpa [List.map_map, Function.comp] using h1
  refine ⟨?_, hperm, ?_, rfl⟩
  · refine ⟨[(.pyStr "average_score",
        groupField report "customer_satisfaction" "avg_review_score"),
      (.pyStr "total_reviews",
        groupField report "customer_satisfaction" "total_reviews"),
      (.pyStr "score_5_percentage",
        groupField report "customer_satisfaction" "score_5_percentage"),
      (.pyStr "score_4_plus_percentage",
        groupField report "customer_satisfaction" "score_4_plus_percentage")], ?_⟩
    rw [reviewsExport]
    rw [dGet_reportGet report _ _ h, dGet_reportGet report _ _ h,
      dGet_reportGet report _ _ h, dGet_reportGet report _ _ h]
    rfl
  · intro p hp
    have hp' : p ∈ histogramOf combined := hperm.mem_iff.1 hp
    rw [histogramOf] at hp'
    rcases List.mem_map.1 hp' with ⟨v, hv, rfl⟩
    exact ⟨rfl, mem_dedupFirst_sub _ _ hv⟩

/-- Witness for C4: the theorem applied to the concrete five-row dataset of
the claim (scores 5, 5, 4, 3, missing) and the empty report. -/
theorem reviews_score_counts_witness :
    dictOrAbsent [] "customer_satisfaction" = true ∧
    ((∃ rest, reviewsExport
        [[("review_score", .pyInt 5)], [("review_score", .pyInt 5)],
         [("review_score", .pyInt 4)], [("review_score", .pyInt 3)],
         [("review_score", .pyNone)]] [] =
      .ok (.pyDict ((.pyStr "score_counts", .pyDict (scoreCounts
        [[("review_score", .pyInt 5)], [("review_score", .pyInt 5)],
         [("review_score", .pyInt 4)], [("review_score", .pyInt 3)],
         [("review_score", .pyNone)]])) :: rest))) ∧
    (scoreCounts
        [[("review_score", .pyInt 5)], [("review_score", .pyInt 5)],
         [("review_score", .pyInt 4)], [("review_score", .pyInt 3)],
         [("review_score", .pyNone)]]).Perm (histogramOf
        [[("review_score", .pyInt 5)], [("review_score", .pyInt 5)],
         [("review_score", .pyInt 4)], [("review_score", .pyInt 3)],
         [("review_score", .pyNone)]]) ∧
    (∀ p ∈ scoreCounts
        [[("review_score", .pyInt 5)], [("review_score", .pyInt 5)],
         [("review_score", .pyInt 4)], [("review_score", .pyInt 3)],
         [("review_score", .pyNone)]],
      p.2 = .pyInt (countOcc (scoresOf
        [[("review_score", .pyInt 5)], [("review_score", .pyInt 5)],
         [("review_score", .pyInt 4)], [("review_score", .pyInt 3)],
         [("review_score", .pyNone)]]) p.1) ∧ p.1 ∈ scoresOf
        [[("review_score", .pyInt 5)], [("review_score", .pyInt 5)],
         [("review_score", .pyInt 4)], [("review_score", .pyInt 3)],
         [("review_score", .pyNone)]]) ∧
    reviewsExport
        [[("review_score", .pyInt 5)], [("review_score", .pyInt 5)],
         [("review_score", .pyInt 4)], [("review_score", .pyInt 3)],
         [("review_score", .pyNone)]] [] =
      .ok (.pyDict [(.pyStr "score_counts", .pyDict
          [(.pyInt 5, .pyInt 2), (.pyInt 4, .pyInt 1), (.pyInt 3, .pyInt 1)]),
        (.pyStr "average_score", .pyInt 0), (.pyStr "total_reviews", .pyInt 0),
        (.pyStr "score_5_percentage", .pyInt 0),
        (.pyStr "score_4_plus_percentage", .pyInt 0)])) :=
  ⟨rfl, reviews_score_counts _ [] rfl⟩

/-- Claim C8: the pipeline is a pure function of the loader's outputs, the
calculator's outputs and the configuration.  Two runs with identical inputs
produce identical Export Records, and hence — `json.dump` being a
deterministic serialization of the value it is given — byte-identical file
contents under any serialization function; nothing time- or run-varying
enters the embedding. -/
theorem export_data_deterministic (l1 l2 : Loader) (c1 c2 : Calc)
    (cfg1 cfg2 : Config) (ser : PyVal → String)
    (hl : l1 = l2) (hc : c1 = c2) (hcfg : cfg1 = cfg2) :
    export_data l1 c1 cfg1 = export_data l2 c2 cfg2 ∧
    (export_data l1 c1 cfg1).map (List.map ser) =
      (export_data l2 c2 cfg2).map (List.map ser) := by
  subst hl
  subst hc
  subst hcfg
  exact ⟨rfl, rfl⟩

/-- Witness for C8: two textually separate but equal runs at the source's
configuration. -/
theorem export_data_deterministic_witness :
    (fun (_ : Option Int) (_ : Option Int) (_ : Option String) => ([] : Frame)) =
      (fun (_ : Option Int) (_ : Option Int) (_ : Option String) => ([] : Frame)) ∧
    (fun (_ : Frame) (_ : Int) (_ : Option Int) => ([] : Report)) =
      (fun (_ : Frame) (_ : Int) (_ : Option Int) => ([] : Report)) ∧
    defaultConfig = defaultConfig ∧
    (export_data (fun _ _ _ => []) (fun _ _ _ => []) defaultConfig =
        export_data (fun _ _ _ => []) (fun _ _ _ => []) defaultConfig ∧
      (export_data (fun _ _ _ => []) (fun _ _ _ => []) defaultConfig).map
          (List.map (fun _ => "")) =
        (export_data (fun _ _ _ => []) (fun _ _ _ => []) defaultConfig).map
          (List.map (fun _ => ""))) :=
  ⟨rfl, rfl, rfl,
    export_data_deterministic (fun _ _ _ => []) (fun _ _ _ => [])
      (fun _ _ _ => []) (fun _ _ _ => []) defaultConfig defaultConfig
      (fun _ => "") rfl rfl rfl⟩

/-- Native Python scalar: None, bool, int, float, str (a JSON leaf). -/
def isNativeScalar : PyVal → Bool
  | .pyNone => true
  | .pyBool _ => true
  | .pyInt _ => true
  | .pyFloat _ => true
  | .pyStr _ => true
  | _ => false

/-- A scalar cell value as pandas holds them: native or numpy scalar. -/
def scalarish : PyVal → Bool
  | .npInt _ => true
  | .npFloat _ => true
  | v => isNativeScalar v

/-- What `json.dump` accepts as a dict key (coercing it to a string): str,
int, float, bool or None.  A numpy float qualifies because `np.float64`
subclasses Python `float`; a numpy int does not subclass `int` and is
rejected. -/
def jsonKeyOk : PyVal → Bool
  | .npFloat _ => true
  | v => isNativeScalar v

mutual

/-- Array contents that `ndarray.tolist` fully converts: scalars, or nested
arrays of such. -/
def arrayClean : PyVal → Bool
  | .npArray xs => arrayCleanList xs
  | v => scalarish v

/-- Conjunction of `arrayClean` over the elements of an array. -/
def arrayCleanList : List PyVal → Bool
  | [] => true
  | x :: xs => arrayClean x && arrayCleanList xs

end

mutual

/-- A well-formed loader/calculator value: DataFrame cells and Series
values are scalars, dict and Series keys are `json.dump`-compatible
scalars, arrays hold scalars (or nested such arrays), and dict/list
members are recursively well-formed.  This is the shape of data the
numeric layer actually produces and the report data model promises. -/
def cleanVal : PyVal → Bool
  | .pyDataFrame rows => rows.all (fun row => row.all (fun kv => scalarish kv.2))
  | .pySeries es => es.all (fun kv => jsonKeyOk kv.1 && scalarish kv.2)
  | .npArray xs => arrayCleanList xs
  | .pyDict es => cleanPairs es
  | .pyList xs => cleanList xs
  | _ => true

/-- Conjunction of `cleanVal` over dict entries: keys `json.dump`-compatible, values
recursively clean. -/
def cleanPairs : List (PyVal × PyVal) → Bool
  | [] => true
  | (k, v) :: es => jsonKeyOk k && cleanVal v && cleanPairs es

/-- Conjunction of `cleanVal` over list elements. -/
def cleanList : List PyVal → Bool
  | [] => true
  | x :: xs => cleanVal x && cleanList xs

end

mutual

/-- A value `json.dump` serializes with default settings: native scalars,
lists of such, and dicts whose keys are `json.dump`-compatible scalars
(strings, numbers, booleans, null — coerced to strings) and whose values
recurse.  Library types other than numpy floats in key position are
rejected. -/
def jsonDumpable : PyVal → Bool
  | .pyNone => true
  | .pyBool _ => true
  | .pyInt _ => true
  | .pyFloat _ => true
  | .pyStr _ => true
  | .pyList xs => dumpList xs
  | .pyDict es => dumpPairs es
  | _ => false

/-- Conjunction of `jsonDumpable` over dict entries. -/
def dumpPairs : List (PyVal × PyVal) → Bool
  | [] => true
  | (k, v) :: es => jsonKeyOk k && jsonDumpable v && dumpPairs es

/-- Conjunction of `jsonDumpable` over list elements. -/
def dumpList : List PyVal → Bool
  | [] => true
  | x :: xs => jsonDumpable x && dumpList xs

end

mutual

/-- The claim's literal invariant: built only from strings, numbers,
booleans, null, ordered sequences, and mappings whose keys are all
STRINGS. -/
def jsonSafeStr : PyVal → Bool
  | .pyNone => true
  | .pyBool _ => true
  | .pyInt _ => true
  | .pyFloat _ => true
  | .pyStr _ => true
  | .pyList xs => safeStrList xs
  | .pyDict es => safeStrPairs es
  | _ => false

/-- Conjunction of `jsonSafeStr` over dict entries: keys must be strings. -/
def safeStrPairs : List (PyVal × PyVal) → Bool
  | [] => true
  | (k, v) :: es =>
    (match k with | .pyStr _ => true | _ => false) && jsonSafeStr v && safeStrPairs es

/-- Conjunction of `jsonSafeStr` over list elements. -/
def safeStrList : List PyVal → Bool
  | [] => true
  | x :: xs => jsonSafeStr x && safeStrList xs

end

theorem cleanPairs_eq_all (es : List (PyVal × PyVal)) :
    cleanPairs es = es.all (fun kv => jsonKeyOk kv.1 && cleanVal kv.2) := by
  induction es with
  | nil => rfl
  | cons kv es ih => cases kv; simp [cleanPairs, ih, Bool.and_assoc]

theorem cleanList_eq_all (xs : List PyVal) : cleanList xs = xs.all cleanVal := by
  induction xs with
  | nil => rfl
  | cons x xs ih => simp [cleanList, ih]

theorem dumpPairs_eq_all (es : List (PyVal × PyVal)) :
    dumpPairs es = es.all (fun kv => jsonKeyOk kv.1 && jsonDumpable kv.2) := by
  induction es with
  | nil => rfl
  | cons kv es ih => cases kv; simp [dumpPairs, ih, Bool.and_assoc]

theorem dumpList_eq_all (xs : List PyVal) : dumpList xs = xs.all jsonDumpable := by
  induction xs with
  | nil => rfl
  | cons x xs ih => simp [dumpList, ih]

theorem arrayCleanList_eq_all (xs : List PyVal) :
    arrayCleanList xs = xs.all arrayClean := by
  induction xs with
  | nil => rfl
  | cons x xs ih => simp [arrayCleanList, ih]

theorem scalarish_box (v : PyVal) (h : scalarish v = true) :
    isNativeScalar (maybe_box_native v) = true := by
  cases v <;> simp_all [scalarish, isNativeScalar, maybe_box_native]

theorem nativeScalar_clean (v : PyVal) (h : isNativeScalar v = true) :
    cleanVal v = true := by
  cases v <;> simp_all [isNativeScalar, cleanVal]

theorem nativeScalar_dump (v : PyVal) (h : isNativeScalar v = true) :
    jsonDumpable v = true := by
  cases v <;> simp_all [isNativeScalar, jsonDumpable]

mutual

theorem arrayClean_dump : ∀ v, arrayClean v = true → jsonDumpable (npTolist v) = true
  | .npArray xs, h => arrayCleanList_dump xs h
  | .npInt _, _ => rfl
  | .npFloat _, _ => rfl
  | .pyNone, _ => rfl
  | .pyBool _, _ => rfl
  | .pyInt _, _ => rfl
  | .pyFloat _, _ => rfl
  | .pyStr _, _ => rfl
  | .pySeries _, h => by simp [arrayClean, scalarish, isNativeScalar] at h
  | .pyDataFrame _, h => by simp [arrayClean, scalarish, isNativeScalar] at h
  | .pyDict _, h => by simp [arrayClean, scalarish, isNativeScalar] at h
  | .pyList _, h => by simp [arrayClean, scalarish, isNativeScalar] at h

theorem arrayCleanList_dump :
    ∀ xs, arrayCleanList xs = true → dumpList (npTolistList xs) = true
  | [], _ => rfl
  | x :: xs, h => by
    rw [npTolistList, dumpList]
    rw [arrayCleanList, Bool.and_eq_true] at h
    simp [arrayClean_dump x h.1, arrayCleanList_dump xs h.2]

end

mutual

theorem clean_dump : ∀ v, cleanVal v = true → jsonDumpable (to_python_types v) = true
  | .pyNone, _ => rfl
  | .pyBool _, _ => rfl
  | .pyInt _, _ => rfl
  | .pyFloat _, _ => rfl
  | .pyStr _, _ => rfl
  | .npInt _, _ => rfl
  | .npFloat _, _ => rfl
  | .npArray xs, h => arrayCleanList_dump xs h
  | .pySeries es, h => by
    rw [cleanVal] at h
    show dumpPairs (seriesToDict es) = true
    rw [seriesToDict, dumpPairs_eq_all]
    rw [List.all_eq_true] at h ⊢
    intro kv' hkv'
    rcases List.mem_map.1 hkv' with ⟨kv, hkv, rfl⟩
    have h2 := h kv hkv
    rw [Bool.and_eq_true] at h2
    rw [Bool.and_eq_true]
    exact ⟨h2.1, nativeScalar_dump _ (scalarish_box _ h2.2)⟩
  | .pyDataFrame rows, h => by
    rw [cleanVal] at h
    show dumpList (dfRecords rows) = true
    rw [dfRecords, dumpList_eq_all]
    rw [List.all_eq_true] at h ⊢
    intro rec hrec
    rcases List.mem_map.1 hrec with ⟨row, hrow, rfl⟩
    have hcells := List.all_eq_true.1 (h row hrow)
    show dumpPairs (row.map (fun kv => (.pyStr kv.1, maybe_box_native kv.2))) = true
    rw [dumpPairs_eq_all, List.all_eq_true]
    intro kv' hkv'
    rcases List.mem_map.1 hkv' with ⟨kv, hkv, rfl⟩
    rw [Bool.and_eq_true]
    exact ⟨rfl, nativeScalar_dump _ (scalarish_box _ (hcells kv hkv))⟩
  | .pyDict es, h => cleanPairs_dump es h
  | .pyList xs, h => cleanList_dump xs h

theorem cleanPairs_dump : ∀ es, cleanPairs es = true → dumpPairs (toPyPairs es) = true
  | [], _ => rfl
  | (k, v) :: es, h => by
    rw [toPyPairs, dumpPairs]
    rw [cleanPairs, Bool.and_eq_true, Bool.and_eq_true] at h
    simp [h.1.1, clean_dump v h.1.2, cleanPairs_dump es h.2]

theorem cleanList_dump : ∀ xs, cleanList xs = true → dumpList (toPyList xs) = true
  | [], _ => rfl
  | x :: xs, h => by
    rw [toPyList, dumpList]
    rw [cleanList, Bool.and_eq_true] at h
    simp [clean_dump x h.1, cleanList_dump xs h.2]

end

theorem lookup_mem_report (report : Report) (g : String) (v : PyVal)
    (h : report.lookup g = some v) : ∃ k, (k, v) ∈ report := by
  induction report with
  | nil => cases h
  | cons p ps ih =>
    cases p with
    | mk k w =>
      rw [List.lookup] at h
      split at h
      · cases h
        exact ⟨k, List.mem_cons_self _ _⟩
      · rcases ih h with ⟨k', hk'⟩
        exact ⟨k', List.mem_cons_of_mem _ hk'⟩

theorem cleanVal_reportGet (report : Report) (g : String) (d : PyVal)
    (hr : ∀ kv ∈ report, cleanVal kv.2 = true) (hd : cleanVal d = true) :
    cleanVal (reportGet report g d) = true := by
  rw [reportGet]
  cases hg : report.lookup g with
  | none => exact hd
  | some v =>
    rcases lookup_mem_report report g v hg with ⟨k, hkv⟩
    exact hr (k, v) hkv

theorem clean_dGet (v d w : PyVal) (f : String)
    (hv : cleanVal v = true) (hd : cleanVal d = true)
    (h : dGet v f d = .ok w) : cleanVal w = true := by
  cases v <;> simp only [dGet] at h <;> try cases h
  case pyDict es =>
    rw [cleanVal, cleanPairs_eq_all, List.all_eq_true] at hv
    split at h
    case h_1 kv hf =>
      cases h
      have hmem := List.mem_of_find?_eq_some hf
      have := hv kv hmem
      rw [Bool.and_eq_true] at this
      exact this.2
    case h_2 =>
      cases h
      exact hd

theorem itemGet_boxed_native (row : Row) (k : String) (d : PyVal)
    (hrow : ∀ kv ∈ row, scalarish kv.2 = true) (hd : isNativeScalar d = true) :
    isNativeScalar
      (itemGet (row.map (fun kv => (kv.1, maybe_box_native kv.2))) k d) = true := by
  rw [itemGet]
  cases hf : (row.map (fun kv => (kv.1, maybe_box_native kv.2))).find?
      (fun kv => kv.1 == k) with
  | none => exact hd
  | some kv =>
    have hmem := List.mem_of_find?_eq_some hf
    rcases List.mem_map.1 hmem with ⟨kv0, hkv0, rfl⟩
    exact scalarish_box _ (hrow kv0 hkv0)

theorem scoresOf_keyOk (combined : Frame)
    (hc : ∀ r ∈ combined, jsonKeyOk (cellOf r "review_score") = true) :
    ∀ v ∈ scoresOf combined, jsonKeyOk v = true := by
  intro v hv
  rw [scoresOf] at hv
  rcases List.mem_map.1 hv with ⟨r, hr, rfl⟩
  exact hc r (List.mem_of_mem_filter hr)

theorem scoreCounts_clean (combined : Frame)
    (hc : ∀ r ∈ combined, jsonKeyOk (cellOf r "review_score") = true) :
    cleanPairs (scoreCounts combined) = true := by
  rw [cleanPairs_eq_all, List.all_eq_true]
  intro p hp
  rw [scoreCounts] at hp
  rcases List.mem_map.1 hp with ⟨q, hq, rfl⟩
  have hq' : q ∈ (dedupFirst (scoresOf combined)).map
      (fun v => (v, countOcc (scoresOf combined) v)) :=
    (value_counts_perm (scoresOf combined)).mem_iff.1 hq
  rcases List.mem_map.1 hq' with ⟨v, hv, rfl⟩
  rw [Bool.and_eq_true]
  exact ⟨scoresOf_keyOk combined hc v (mem_dedupFirst_sub _ _ hv), rfl⟩

theorem kpiMetrics_clean (report : Report) (k : PyVal)
    (hr : ∀ kv ∈ report, cleanVal kv.2 = true)
    (h : kpiMetrics report = .ok k) : cleanVal k = true := by
  have hrm : cleanVal (reportGet report "revenue_metrics" (.pyDict [])) = true :=
    cleanVal_reportGet report _ _ hr rfl
  have hcm : cleanVal (reportGet report "customer_metrics" (.pyDict [])) = true :=
    cleanVal_reportGet report _ _ hr rfl
  have hdm : cleanVal (reportGet report "delivery_metrics" (.pyDict [])) = true :=
    cleanVal_reportGet report _ _ hr rfl
  rw [kpiMetrics] at h
  cases h1 : dGet (reportGet report "revenue_metrics" (.pyDict []))
      "total_orders" (.pyInt 0) with
  | error e => rw [h1] at h; simp [Except.instMonad, Except.bind, Except.map] at h
  | ok v1 =>
  rw [h1] at h
  cases h2 : dGet (reportGet report "revenue_metrics" (.pyDict []))
      "total_revenue" (.pyInt 0) with
  | error e => rw [h2] at h; simp [Except.instMonad, Except.bind, Except.map] at h
  | ok v2 =>
  rw [h2] at h
  cases h3 : dGet (reportGet report "revenue_metrics" (.pyDict []))
      "average_order_value" (.pyInt 0) with
  | error e => rw [h3] at h; simp [Except.instMonad, Except.bind, Except.map] at h
  | ok v3 =>
  rw [h3] at h
  cases h4 : dGet (reportGet report "revenue_metrics" (.pyDict []))
      "revenue_growth_pct" (.pyInt 0) with
  | error e => rw [h4] at h; simp [Except.instMonad, Except.bind, Except.map] at h
  | ok v4 =>
  rw [h4] at h
  cases h5 : dGet (reportGet report "customer_metrics" (.pyDict []))
      "unique_customers" (.pyInt 0) with
  | error e => rw [h5] at h; simp [Except.instMonad, Except.bind, Except.map] at h
  | ok v5 =>
  rw [h5] at h
  cases h6 : dGet (reportGet report "delivery_metrics" (.pyDict []))
      "fast_delivery_percentage" (.pyInt 0) with
  | error e => rw [h6] at h; simp [Except.instMonad, Except.bind, Except.map] at h
  | ok v6 =>
  rw [h6] at h
  simp only [Except.instMonad, Except.bind, Except.map, pure, Except.pure,
    Except.ok.injEq] at h
  subst h
  have c1 := clean_dGet _ (.pyInt 0) _ _ hrm rfl h1
  have c2 := clean_dGet _ (.pyInt 0) _ _ hrm rfl h2
  have c3 := clean_dGet _ (.pyInt 0) _ _ hrm rfl h3
  have c4 := clean_dGet _ (.pyInt 0) _ _ hrm rfl h4
  have c5 := clean_dGet _ (.pyInt 0) _ _ hcm rfl h5
  have c6 := clean_dGet _ (.pyInt 0) _ _ hdm rfl h6
  rw [cleanVal]
  simp [cleanPairs, jsonKeyOk, isNativeScalar, c1, c2, c3, c4, c5, c6]

theorem monthlyData_clean (ay : Int) (mt m : PyVal)
    (hmt : cleanVal mt = true) (h : monthlyData ay mt = .ok m) :
    cleanVal m = true := by
  cases mt with
  | pyNone => exact (Except.ok.inj h) ▸ hmt
  | pyBool b => exact (Except.ok.inj h) ▸ hmt
  | pyInt n => exact (Except.ok.inj h) ▸ hmt
  | pyFloat q => exact (Except.ok.inj h) ▸ hmt
  | pyStr s => exact (Except.ok.inj h) ▸ hmt
  | npInt n => exact (Except.ok.inj h) ▸ hmt
  | npFloat q => exact (Except.ok.inj h) ▸ hmt
  | npArray xs => exact (Except.ok.inj h) ▸ hmt
  | pyDict es => exact (Except.ok.inj h) ▸ hmt
  | pyList xs => exact (Except.ok.inj h) ▸ hmt
  | pySeries es => simp [monthlyData] at h
  | pyDataFrame rows =>
    rw [monthlyData] at h
    cases h
    rw [cleanVal] at hmt
    rw [cleanVal, cleanList_eq_all, List.all_eq_true]
    intro rec hrec
    rcases List.mem_map.1 hrec with ⟨row, hrow, rfl⟩
    have hcells : ∀ kv ∈ row, scalarish kv.2 = true :=
      List.all_eq_true.1 (List.all_eq_true.1 hmt row hrow)
    rw [cleanVal]
    simp only [cleanPairs, jsonKeyOk, isNativeScalar, Bool.and_true, Bool.true_and]
    have n1 := itemGet_boxed_native row "month" (.pyInt 0) hcells rfl
    have n2 := itemGet_boxed_native row "revenue" (.pyInt 0) hcells rfl
    have n3 := itemGet_boxed_native row "orders" (.pyInt 0) hcells rfl
    simp [nativeScalar_clean _ n1, nativeScalar_clean _ n2, nativeScalar_clean _ n3,
      cleanVal]

theorem categoriesFrom_clean (cdf c : PyVal)
    (hcdf : cleanVal cdf = true) (h : categoriesFrom cdf = .ok c) :
    cleanVal c = true := by
  cases cdf with
  | pyNone => exact (Except.ok.inj h) ▸ rfl
  | pyBool b => exact (Except.ok.inj h) ▸ rfl
  | pyInt n => exact (Except.ok.inj h) ▸ rfl
  | pyFloat q => exact (Except.ok.inj h) ▸ rfl
  | pyStr s => exact (Except.ok.inj h) ▸ rfl
  | npInt n => exact (Except.ok.inj h) ▸ rfl
  | npFloat q => exact (Except.ok.inj h) ▸ rfl
  | npArray xs => exact (Except.ok.inj h) ▸ rfl
  | pyDict es => exact (Except.ok.inj h) ▸ rfl
  | pySeries es => simp [categoriesFrom] at h
  | pyList xs =>
    rw [categoriesFrom] at h
    cases h
    rw [cleanVal, cleanList_eq_all, List.all_eq_true] at hcdf
    rw [cleanVal, cleanList_eq_all, List.all_eq_true]
    intro x hx
    exact hcdf x (List.take_subset _ _ hx)
  | pyDataFrame rows =>
    rw [categoriesFrom] at h
    cases h
    rw [cleanVal] at hcdf
    rw [cleanVal, cleanList_eq_all, List.all_eq_true]
    intro rec hrec
    rcases List.mem_map.1 hrec with ⟨row, hrow, rfl⟩
    have hcells : ∀ kv ∈ row, scalarish kv.2 = true :=
      List.all_eq_true.1
        (List.all_eq_true.1 hcdf row (List.take_subset _ _ hrow))
    rw [cleanVal]
    simp only [cleanPairs, jsonKeyOk, isNativeScalar, Bool.and_true, Bool.true_and]
    have n1 := itemGet_boxed_native row "product_category_name" (.pyStr "") hcells rfl
    have n2 := itemGet_boxed_native row "total_revenue" (.pyInt 0) hcells rfl
    have n3 := itemGet_boxed_native row "unique_orders" (.pyInt 0) hcells rfl
    have n4 := itemGet_boxed_native row "items_sold" (.pyInt 0) hcells rfl
    simp [nativeScalar_clean _ n1, nativeScalar_clean _ n2, nativeScalar_clean _ n3,
      nativeScalar_clean _ n4]

theorem categoriesData_clean (report : Report) (c : PyVal)
    (hr : ∀ kv ∈ report, cleanVal kv.2 = true)
    (h : categoriesData report = .ok c) : cleanVal c = true := by
  have hpp : cleanVal (reportGet report "product_performance" (.pyDict [])) = true :=
    cleanVal_reportGet report _ _ hr rfl
  rw [categoriesData] at h
  cases h1 : dGet (reportGet report "product_performance" (.pyDict []))
      "top_categories" (.pyList []) with
  | error e => rw [h1] at h; simp [Except.instMonad, Except.bind, Except.map] at h
  | ok cdf =>
    rw [h1] at h
    simp only [Except.instMonad, Except.bind, Except.map] at h
    exact categoriesFrom_clean cdf c (clean_dGet _ (.pyList []) _ _ hpp rfl h1) h

theorem reviewsExport_clean (combined : Frame) (report : Report) (m : PyVal)
    (hr : ∀ kv ∈ report, cleanVal kv.2 = true)
    (hc : ∀ r ∈ combined, jsonKeyOk (cellOf r "review_score") = true)
    (h : reviewsExport combined report = .ok m) : cleanVal m = true := by
  have hcs : cleanVal (reportGet report "customer_satisfaction" (.pyDict [])) = true :=
    cleanVal_reportGet report _ _ hr rfl
  rw [reviewsExport] at h
  cases h1 : dGet (reportGet report "customer_satisfaction" (.pyDict []))
      "avg_review_score" (.pyInt 0) with
  | error e => rw [h1] at h; simp [Except.instMonad, Except.bind, Except.map] at h
  | ok v1 =>
  rw [h1] at h
  cases h2 : dGet (reportGet report "customer_satisfaction" (.pyDict []))
      "total_reviews" (.pyInt 0) with
  | error e => rw [h2] at h; simp [Except.instMonad, Except.bind, Except.map] at h
  | ok v2 =>
  rw [h2] at h
  cases h3 : dGet (reportGet report "customer_satisfaction" (.pyDict []))
      "score_5_percentage" (.pyInt 0) with
  | error e => rw [h3] at h; simp [Except.instMonad, Except.bind, Except.map] at h
  | ok v3 =>
  rw [h3] at h
  cases h4 : dGet (reportGet report "customer_satisfaction" (.pyDict []))
      "score_4_plus_percentage" (.pyInt 0) with
  | error e => rw [h4] at h; simp [Except.instMonad, Except.bind, Except.map] at h
  | ok v4 =>
  rw [h4] at h
  simp only [Except.instMonad, Except.bind, Except.map, pure, Except.pure,
    Except.ok.injEq] at h
  subst h
  have c1 := clean_dGet _ (.pyInt 0) _ _ hcs rfl h1
  have c2 := clean_dGet _ (.pyInt 0) _ _ hcs rfl h2
  have c3 := clean_dGet _ (.pyInt 0) _ _ hcs rfl h3
  have c4 := clean_dGet _ (.pyInt 0) _ _ hcs rfl h4
  have hsc := scoreCounts_clean combined hc
  rw [cleanVal]
  simp [cleanPairs, jsonKeyOk, isNativeScalar, c1, c2, c3, c4, cleanVal, hsc]

/-- Counterexample to claim C7 as stated: with the plain one-row dataset
`[\x7b"review_score": 5\x7d]` and an empty report, the reviews record
(fourth of the eight Export Records) contains the `score_counts` mapping
`\x7b5: 1\x7d`, whose key is the integer 5 — not a string — so after
normalization it is NOT built from string-keyed mappings only, while the
other seven records are.  (`json.dump` still serializes it, coercing the
numeric key to a string.) -/
theorem export_string_keys_cex :
    (exportRecords [[("review_score", .pyInt 5)]] [] 2023).map
        (List.map jsonSafeStr) =
      .ok [true, true, true, false, true, true, true, true] := rfl

/-- Claim C7, amended: for a report whose group values are clean
loader/calculator values (scalar DataFrame cells and Series values,
`json.dump`-compatible dict and Series keys, arrays of scalars) and a
combined dataset whose `review_score` cells are `json.dump`-compatible
scalars, every Export Record a successful run produces is, after
normalization by `to_python_types`, built only from native scalars, ordered
sequences, and mappings whose keys are `json.dump`-compatible scalars
(strings, numbers, booleans or null — not necessarily strings). -/
theorem export_records_dumpable (combined : Frame) (report : Report) (ay : Int)
    (outs : List PyVal)
    (hr : ∀ kv ∈ report, cleanVal kv.2 = true)
    (hc : ∀ r ∈ combined, jsonKeyOk (cellOf r "review_score") = true)
    (h : exportRecords combined report ay = .ok outs) :
    ∀ o ∈ outs, jsonDumpable o = true := by
  rw [exportRecords] at h
  cases h1 : kpiMetrics report with
  | error e => rw [h1] at h; simp [Except.instMonad, Except.bind, Except.map] at h
  | ok kpi =>
  rw [h1] at h
  cases h2 : monthlyData ay (reportGet report "monthly_trends" (.pyList [])) with
  | error e => rw [h2] at h; simp [Except.instMonad, Except.bind, Except.map] at h
  | ok monthly =>
  rw [h2] at h
  cases h3 : categoriesData report with
  | error e => rw [h3] at h; simp [Except.instMonad, Except.bind, Except.map] at h
  | ok cats =>
  rw [h3] at h
  cases h4 : reviewsExport combined report with
  | error e => rw [h4] at h; simp [Except.instMonad, Except.bind, Except.map] at h
  | ok reviews =>
  rw [h4] at h
  simp only [Except.instMonad, Except.bind, Except.map, pure, Except.pure,
    Except.ok.injEq] at h
  subst h
  have ck : cleanVal kpi = true := kpiMetrics_clean report kpi hr h1
  have cm : cleanVal monthly = true :=
    monthlyData_clean ay _ monthly
      (cleanVal_reportGet report "monthly_trends" (.pyList []) hr rfl) h2
  have cc : cleanVal cats = true := categoriesData_clean report cats hr h3
  have cv : cleanVal reviews = true :=
    reviewsExport_clean combined report reviews hr hc h4
  have cgeo : cleanVal (reportGet report "geographic_performance" (.pyList [])) = true :=
    cleanVal_reportGet report _ _ hr rfl
  have cdel : cleanVal (reportGet report "delivery_performance" (.pyDict [])) = true :=
    cleanVal_reportGet report _ _ hr rfl
  have cpay : cleanVal (reportGet report "payment_analysis" (.pyDict [])) = true :=
    cleanVal_reportGet report _ _ hr rfl
  have ccus : cleanVal (reportGet report "customer_segments" (.pyDict [])) = true :=
    cleanVal_reportGet report _ _ hr rfl
  intro o ho
  simp only [List.mem_cons, List.not_mem_nil, or_false] at ho
  rcases ho with rfl | rfl | rfl | rfl | rfl | rfl | rfl | rfl
  · exact clean_dump _ ck
  · exact clean_dump _ cm
  · exact clean_dump _ cc
  · exact clean_dump _ cv
  · exact clean_dump _ cgeo
  · exact clean_dump _ cdel
  · exact clean_dump _ cpay
  · exact clean_dump _ ccus

/-- Witness for amended C7: the concrete run of the counterexample input —
one review-score row, empty report — succeeds and every one of its eight
records is `jsonDumpable` (the reviews record has a numeric, non-string,
key). -/
theorem export_records_dumpable_witness :
    (∀ kv ∈ ([] : Report), cleanVal kv.2 = true) ∧
    (∀ r ∈ [[("review_score", PyVal.pyInt 5)]],
      jsonKeyOk (cellOf r "review_score") = true) ∧
    exportRecords [[("review_score", .pyInt 5)]] [] 2023 = .ok
      [.pyDict [(.pyStr "total_orders", .pyInt 0), (.pyStr "total_revenue", .pyInt 0),
        (.pyStr "avg_order_value", .pyInt 0), (.pyStr "revenue_growth_pct", .pyInt 0),
        (.pyStr "unique_customers", .pyInt 0), (.pyStr "fast_delivery_pct", .pyInt 0)],
       .pyList [], .pyList [],
       .pyDict [(.pyStr "score_counts", .pyDict [(.pyInt 5, .pyInt 1)]),
        (.pyStr "average_score", .pyInt 0), (.pyStr "total_reviews", .pyInt 0),
        (.pyStr "score_5_percentage", .pyInt 0),
        (.pyStr "score_4_plus_percentage", .pyInt 0)],
       .pyList [], .pyDict [], .pyDict [], .pyDict []] ∧
    ∀ o ∈ [PyVal.pyDict [(.pyStr "total_orders", .pyInt 0), (.pyStr "total_revenue", .pyInt 0),
        (.pyStr "avg_order_value", .pyInt 0), (.pyStr "revenue_growth_pct", .pyInt 0),
        (.pyStr "unique_customers", .pyInt 0), (.pyStr "fast_delivery_pct", .pyInt 0)],
       PyVal.pyList [], PyVal.pyList [],
       PyVal.pyDict [(.pyStr "score_counts", .pyDict [(.pyInt 5, .pyInt 1)]),
        (.pyStr "average_score", .pyInt 0), (.pyStr "total_reviews", .pyInt 0),
        (.pyStr "score_5_percentage", .pyInt 0),
        (.pyStr "score_4_plus_percentage", .pyInt 0)],
       PyVal.pyList [], PyVal.pyDict [], PyVal.pyDict [], PyVal.pyDict []],
      jsonDumpable o = true :=
  ⟨fun kv hkv => absurd hkv (List.not_mem_nil kv),
   fun r hr => by
     rw [List.mem_singleton] at hr
     subst hr
     rfl,
   rfl,
   export_records_dumpable [[("review_score", .pyInt 5)]] [] 2023 _
     (fun kv hkv => absurd hkv (List.not_mem_nil kv))
     (fun r hr => by
       rw [List.mem_singleton] at hr
       subst hr
       rfl)
     rfl⟩

end ExportData
